import Mathlib

/-!
# The declarations of `windows/anamnese-mobile/MainPage.h`

The header holds no function body: it declares two structs, each deriving
from a template of the generated header `MainPage.g.h`.  The embedding is
therefore the declarations themselves, kept as written (enclosing
namespace, struct name, base-specifiers, member declarations), together
with the readings of a declaration that the properties below are about:

* the operations a struct declares, and what class member lookup finds
  through it,
* the state an object of a struct carries over the state of its base.

`MainPage.g.h` is produced by the build and is absent from the sources.
Nothing here says what it declares: the state of a base (`ImplBase`,
`FactoryBase`) and the member lookup of a base (`baseLookup`) are parameters.
What the names in the base-specifiers denote is decided by that header and is
left as written.
-/

namespace winrt.AnamneseMobile

/-! ## Declarations as written -/

/-- A C++ name, as the list of its components between the `::` separators. -/
abbrev QName := List String

/-- One base-specifier: a template name and its type arguments, each as written. -/
structure BaseSpec where
  template : QName
  args : List QName
deriving DecidableEq, Repr

/-- The kinds of member a struct body can declare. -/
inductive MemberKind where
  | ctor
  | dtor
  | method
  | field
deriving DecidableEq, Repr

/-- One member declaration: its kind, its name, the types of its parameters
and whether the declaration comes with a body. -/
structure Member where
  kind : MemberKind
  name : String
  params : List QName
  defined : Bool
deriving DecidableEq, Repr

/-- One struct declaration: enclosing namespace, name, base-specifiers and the
members declared between its braces, in source order. -/
structure StructDecl where
  scope : QName
  name : String
  bases : List BaseSpec
  members : List Member
deriving DecidableEq, Repr

/-- The struct of `namespace winrt::AnamneseMobile::implementation`:
`struct MainPage : MainPageT<MainPage> { MainPage(); };` -/
def implementation.MainPage : StructDecl where
  scope := ["winrt", "AnamneseMobile", "implementation"]
  name := "MainPage"
  bases := [{ template := ["MainPageT"], args := [["MainPage"]] }]
  members := [{ kind := MemberKind.ctor, name := "MainPage", params := [], defined := false }]

/-- The struct of `namespace winrt::AnamneseMobile::factory_implementation`:
`struct MainPage : MainPageT<MainPage, implementation::MainPage> { };` -/
def factory_implementation.MainPage : StructDecl where
  scope := ["winrt", "AnamneseMobile", "factory_implementation"]
  name := "MainPage"
  bases := [{ template := ["MainPageT"], args := [["MainPage"], ["implementation", "MainPage"]] }]
  members := []

/-! ## Operations -/

/-- The operations a struct declares itself: its members other than data members. -/
def operations (d : StructDecl) : List Member :=
  d.members.filter (fun m => m.kind != MemberKind.field)

/-- The member functions a struct declares itself. -/
def memberFunctions (d : StructDecl) : List Member :=
  d.members.filter (fun m => m.kind == MemberKind.method)

/-- A member declaration rendered as `name(parameter types)`. -/
def Member.signature (m : Member) : String :=
  m.name ++ "(" ++ ", ".intercalate (m.params.map "::".intercalate) ++ ")"

/-- The members named `n` that a struct declares in its body. -/
def ownDeclarations (d : StructDecl) (n : String) : List Member :=
  d.members.filter (fun m => m.name == n)

/-- The names every struct has in its own scope whether or not its body
declares them: its injected class name (which also names its constructors), its
destructor, and the assignment operator, which the compiler declares when the
body does not. -/
def implicitNames (d : StructDecl) : List String :=
  [d.name, "~" ++ d.name, "operator="]

/-- Class member lookup of the name `n` in struct `d`, as the list of declared
members it finds; `baseLookup` is the same lookup in the base classes of `d`.
A name that is in the scope of `d` itself, declared in the body or implicit,
hides every base member of that name, and the lookup then finds the
declarations of the body only; any other name is looked up in the bases.
Constructors are not found by name in a base and so are never inherited. -/
def memberLookup (d : StructDecl) (baseLookup : String → List Member) (n : String) :
    List Member :=
  if (implicitNames d).contains n || !(ownDeclarations d n).isEmpty then ownDeclarations d n
  else baseLookup n

/-! ## State -/

/-- The data members a struct declares itself. -/
def dataMembers (d : StructDecl) : List Member :=
  d.members.filter (fun m => m.kind == MemberKind.field)

/-- The state a list of data members holds: one component per member, of the
type `interp` gives it. -/
def OwnState (interp : Member → Type) : List Member → Type
  | [] => Unit
  | m :: ms => interp m × OwnState interp ms

/-- An object of struct `d` over a base whose state is `Base`: the base
subobject and the struct's own data members. -/
def Object (Base : Type) (interp : Member → Type) (d : StructDecl) : Type :=
  Base × OwnState interp (dataMembers d)

/-- The base subobject of an object. -/
def Object.toBase {Base : Type} {interp : Member → Type} {d : StructDecl}
    (o : Object Base interp d) : Base :=
  o.1

/-! ## Member lookup lemmas -/

/-- A declaration of the body hides the base members of its name: in the
implementation struct the name `MainPage` finds the declared constructor and
nothing of the base. -/
theorem memberLookup_implementation_MainPage (baseLookup : String → List Member) :
    memberLookup implementation.MainPage baseLookup "MainPage" =
      implementation.MainPage.members := by
  have hc : (implicitNames implementation.MainPage).contains "MainPage" = true := by decide
  have ho : ownDeclarations implementation.MainPage "MainPage"
      = implementation.MainPage.members := by decide
  unfold memberLookup
  rw [hc, ho]; rfl

/-! ## The properties of the header -/

/-- C3: the implementation struct `MainPage` declares exactly one member, a
constructor named after the struct, with no parameter and no body; it declares
no member function, and the operations it adds to its base are exactly
`MainPage()`. -/
theorem implementation_MainPage_declares_one_constructor :
    implementation.MainPage.members =
      [{ kind := MemberKind.ctor, name := implementation.MainPage.name,
         params := [], defined := false }] ∧
    memberFunctions implementation.MainPage = [] ∧
    operations implementation.MainPage = implementation.MainPage.members ∧
    (operations implementation.MainPage).map Member.signature = ["MainPage()"] := by
  decide

/-- C4: neither struct declares a data member, so an object of either carries
exactly the state of its base: projecting an object to its base subobject is a
bijection, for any state of the generated bases and any typing of members. -/
theorem MainPage_structs_have_no_data_members (ImplBase FactoryBase : Type)
    (interp : Member → Type) :
    dataMembers implementation.MainPage = [] ∧
    dataMembers factory_implementation.MainPage = [] ∧
    Function.Bijective
      (Object.toBase : Object ImplBase interp implementation.MainPage → ImplBase) ∧
    Function.Bijective
      (Object.toBase : Object FactoryBase interp factory_implementation.MainPage →
        FactoryBase) := by
  refine ⟨rfl, rfl, ⟨?_, ?_⟩, ⟨?_, ?_⟩⟩
  · rintro ⟨b₁, ⟨⟩⟩ ⟨b₂, ⟨⟩⟩ hb
    cases hb; rfl
  · intro b; exact ⟨(b, ()), rfl⟩
  · rintro ⟨b₁, ⟨⟩⟩ ⟨b₂, ⟨⟩⟩ hb
    cases hb; rfl
  · intro b; exact ⟨(b, ()), rfl⟩

end winrt.AnamneseMobile
